import Mathlib

/-!
Shallow embedding of the `@codigo/audio-transcription` core orchestrator
(`packages/core/src/service.ts`, `packages/core/src/types.ts`) together with
the record semantics of the storage collaborator
(`packages/storage/src/sqlite-storage.ts`).

The service is asynchronous TypeScript; each collaborator call (`storage`,
`fileDownloader`, `whisperClient`, `webhookClient`, `fs.mkdtemp`) can either
return a value or throw.  We embed one pipeline run as a pure function from a
`Behavior` — an oracle fixing the outcome of each collaborator call of that
run — to the resulting store, a chronological trace of the collaborator
calls, and whether the run's promise rejected.  Thrown JavaScript values are
either `Error` objects carrying a message or arbitrary non-`Error` values
(`error instanceof Error ? error.message : "Unknown error occurred"` in
`service.ts` distinguishes exactly these two cases).
-/

/-- Thrown JavaScript value: an `Error` with a message, or any non-`Error`
value (whose message is unavailable). Mirrors the discrimination
`error instanceof Error` performed in `service.ts`. -/
inductive Thrown where
  | error (msg : String)
  | nonError
  deriving DecidableEq

/-- Conversion of a thrown value to the string stored in the job record,
from `service.ts` line 56:
`error instanceof Error ? error.message : "Unknown error occurred"`. -/
def Thrown.message : Thrown → String
  | .error m => m
  | .nonError => "Unknown error occurred"

/-- Job status, from `types.ts`:
`"pending" | "processing" | "completed" | "failed"`. -/
inductive JobStatus where
  | pending
  | processing
  | completed
  | failed
  deriving DecidableEq

/-- The persisted entity, from `types.ts` (`interface TranscriptionJob`).
Optional fields are `Option`; `Date` timestamps are abstracted as `Nat`
ticks of the storage collaborator's clock. -/
structure TranscriptionJob where
  id : String
  status : JobStatus
  audioFileUrl : String
  result : Option String
  error : Option String
  webhookUrl : Option String
  createdAt : Nat
  updatedAt : Nat
  deriving DecidableEq

/-- A partial update as passed to `storage.updateJob` (`Partial<TranscriptionJob>`
restricted to the fields the sqlite statement binds: status, result, error,
webhook_url — see `UpdateJobParams` in `sqlite-storage.ts`). `none` means the
field is absent from the update. -/
structure JobUpdate where
  status : Option JobStatus := none
  result : Option String := none
  error : Option String := none
  webhookUrl : Option String := none
  deriving DecidableEq

/-- The storage collaborator's durable state: the table of job rows plus a
clock supplying `created_at` / `updated_at` timestamps
(`strftime(..., 'now')` in `sqlite-storage.ts`). -/
structure Store where
  jobs : List TranscriptionJob
  clock : Nat
  deriving DecidableEq

/-- Lookup of a row by id (`SELECT * FROM transcription_jobs WHERE id = @id`,
first matching row). -/
def findJob : List TranscriptionJob → String → Option TranscriptionJob
  | [], _ => none
  | j :: rest, i => if j.id = i then some j else findJob rest i

/-- Replacement of the first row with the given id. -/
def setJob : List TranscriptionJob → String → TranscriptionJob → List TranscriptionJob
  | [], _, _ => []
  | j :: rest, i, j' => if j.id = i then j' :: rest else j :: setJob rest i j'

/-- Column semantics of the sqlite sparse update:
`CASE WHEN @field IS NOT NULL THEN @field ELSE field END`. -/
def updCol (new old : Option String) : Option String :=
  match new with
  | some v => some v
  | none => old

/-- Sparse-update semantics of the sqlite `UPDATE` statement: each column is
`CASE WHEN @field IS NOT NULL THEN @field ELSE field END`, so an absent field
keeps its stored value and a field can never be cleared; `updated_at` is set
to the current clock. -/
def applyUpdate (j : TranscriptionJob) (u : JobUpdate) (now : Nat) : TranscriptionJob :=
  { j with
    status := u.status.getD j.status
    result := updCol u.result j.result
    error := updCol u.error j.error
    webhookUrl := updCol u.webhookUrl j.webhookUrl
    updatedAt := now }

namespace Storage

/-- Embedding of `storage.createJob`: inserts a fresh row with a
storage-generated id and both timestamps set to now, returning the inserted
row (`INSERT ... RETURNING *`). `fault` injects a storage-collaborator
failure (the thrown value is whatever the collaborator throws). -/
def createJob (st : Store) (status : JobStatus) (audioFileUrl : String)
    (webhookUrl : Option String) (newId : String) (fault : Option Thrown) :
    Except Thrown (TranscriptionJob × Store) :=
  match fault with
  | some e => .error e
  | none =>
    let j : TranscriptionJob :=
      { id := newId, status := status, audioFileUrl := audioFileUrl,
        result := none, error := none, webhookUrl := webhookUrl,
        createdAt := st.clock, updatedAt := st.clock }
    .ok (j, { jobs := j :: st.jobs, clock := st.clock + 1 })

/-- Embedding of `storage.updateJob`: first checks existence (throwing
`Job with id ... not found` for an unknown id), then applies the sparse
update and returns the updated row. `fault` injects a lower-level storage
failure. -/
def updateJob (st : Store) (id : String) (u : JobUpdate) (fault : Option Thrown) :
    Except Thrown (TranscriptionJob × Store) :=
  match fault with
  | some e => .error e
  | none =>
    match findJob st.jobs id with
    | none => .error (.error ("Job with id " ++ id ++ " not found"))
    | some j =>
      let j' := applyUpdate j u st.clock
      .ok (j', { jobs := setJob st.jobs id j', clock := st.clock + 1 })

/-- Embedding of `storage.getJob` from `sqlite-storage.ts`: a missing id is
not an exception (the row lookup just returns no row, mapped to `null`);
a lower-level error is wrapped in `SqliteError("Failed to get job", cause)`
and rethrown. -/
def getJob (st : Store) (id : String) (fault : Option Thrown) :
    Except Thrown (Option TranscriptionJob) :=
  match fault with
  | some _ => .error (.error "Failed to get job")
  | none => .ok (findJob st.jobs id)

end Storage

/-- One collaborator-call event of a pipeline run, recorded in call order.
Storage-update events record the call (the sparse update passed), whether or
not the call succeeded. -/
inductive Event where
  | tempCreated (dir : String)
  | updateCalled (id : String) (u : JobUpdate)
  | downloadCalled (url : String) (destPath : String)
  | transcribeCalled (path : String)
  | notifyCalled (url : String) (job : TranscriptionJob)
  | tempRemoved (dir : String)
  deriving DecidableEq

/-- Oracle fixing the outcome of every collaborator call a single
`createTranscriptionJob` invocation (and the pipeline run it schedules) can
make. `newId` is the id the storage collaborator assigns; `mkdtempResult`
is the outcome of `fs.mkdtemp` in `createTempDir`; `uuid` is the value of
`randomUUID()` for this run. The `...Fault` fields inject a thrown failure
at the corresponding storage call (`none` = the call succeeds normally). -/
structure Behavior where
  newId : String
  createFault : Option Thrown := none
  mkdtempResult : Except Thrown String
  uuid : String
  updateProcessingFault : Option Thrown := none
  downloadResult : Except Thrown Unit
  transcribeResult : Except Thrown String
  updateCompletedFault : Option Thrown := none
  notifyResult : Except Thrown Unit
  updateFailedFault : Option Thrown := none

/-- The audio file path derived in `processTranscription` line 26:
`path.join(tempDir, `${randomUUID()}.audio`)`. -/
def joinPath (tempDir uuid : String) : String :=
  tempDir ++ "/" ++ uuid ++ ".audio"

/-- Outcome of a whole pipeline run: the storage state after the run, the
chronological trace of collaborator calls, and whether the run's promise
rejected (which `createTranscriptionJob` swallows with `.catch`). -/
structure RunResult where
  store : Store
  trace : List Event
  rejected : Bool
  deriving DecidableEq

/-- Body of the inner `try` of `processTranscription` (`service.ts` lines
28–47): persist `processing`, download, transcribe, persist `completed`
with the result, then notify when the updated record's webhook URL is
truthy. The guard `if (updatedJob.webhookUrl)` is JavaScript truthiness on
`string | undefined`: `undefined` (here `none`) and the empty string are
falsy and skip notification. Returns the first thrown value (if any), the
store, and the call trace. -/
def innerBody (b : Behavior) (job : TranscriptionJob) (audioFilePath : String)
    (st : Store) : Except Thrown Unit × Store × List Event :=
  let updProc : JobUpdate := { status := some .processing }
  let tr := [Event.updateCalled job.id updProc]
  match Storage.updateJob st job.id updProc b.updateProcessingFault with
  | .error e => (.error e, st, tr)
  | .ok (_, st1) =>
    let tr := tr ++ [Event.downloadCalled job.audioFileUrl audioFilePath]
    match b.downloadResult with
    | .error e => (.error e, st1, tr)
    | .ok _ =>
      let tr := tr ++ [Event.transcribeCalled audioFilePath]
      match b.transcribeResult with
      | .error e => (.error e, st1, tr)
      | .ok result =>
        let updDone : JobUpdate := { status := some .completed, result := some result }
        let tr := tr ++ [Event.updateCalled job.id updDone]
        match Storage.updateJob st1 job.id updDone b.updateCompletedFault with
        | .error e => (.error e, st1, tr)
        | .ok (updatedJob, st2) =>
          match updatedJob.webhookUrl with
          | none => (.ok (), st2, tr)
          | some url =>
            if url = "" then (.ok (), st2, tr)
            else
              let tr := tr ++ [Event.notifyCalled url updatedJob]
              match b.notifyResult with
              | .error e => (.error e, st2, tr)
              | .ok _ => (.ok (), st2, tr)

/-- The outer `catch` of `processTranscription` (`service.ts` lines 51–58):
persist `status: "failed"` with the stringified error. If this update
itself throws, the run's promise rejects (and the job record is left as it
was). -/
def outerCatch (b : Behavior) (job : TranscriptionJob) (st : Store)
    (tr : List Event) (e : Thrown) : RunResult :=
  let updFail : JobUpdate := { status := some .failed, error := some e.message }
  let tr := tr ++ [Event.updateCalled job.id updFail]
  match Storage.updateJob st job.id updFail b.updateFailedFault with
  | .error _ => { store := st, trace := tr, rejected := true }
  | .ok (_, st') => { store := st', trace := tr, rejected := false }

/-- Embedding of `processTranscription` (`service.ts` lines 23–59): create
the temp directory, derive the audio file path, run the inner body, run the
`finally` cleanup (`fs.rm(dir, { recursive, force })`, modelled as always
removing the directory), and on any thrown value run the outer catch. -/
def processTranscription (b : Behavior) (job : TranscriptionJob) (st : Store) :
    RunResult :=
  match b.mkdtempResult with
  | .error e => outerCatch b job st [] e
  | .ok tempDir =>
    let audioFilePath := joinPath tempDir b.uuid
    let tr0 := [Event.tempCreated tempDir]
    match innerBody b job audioFilePath st with
    | (res, st1, trIn) =>
      let tr1 := tr0 ++ trIn ++ [Event.tempRemoved tempDir]
      match res with
      | .ok _ => { store := st1, trace := tr1, rejected := false }
      | .error e => outerCatch b job st1 tr1 e

/-- The synchronous part of `createTranscriptionJob` (`service.ts` lines
61–69): persist a new record with status `pending` and the given URLs; a
storage failure propagates to the caller unchanged. -/
def createJobOnly (b : Behavior) (audioFileUrl : String)
    (webhookUrl : Option String) (st : Store) :
    Except Thrown (TranscriptionJob × Store) :=
  Storage.createJob st .pending audioFileUrl webhookUrl b.newId b.createFault

/-- Embedding of `createTranscriptionJob` together with the background run
it schedules (`service.ts` lines 61–77): the first component of the `ok`
value is what the caller receives synchronously; the `RunResult` is the
background pipeline's outcome (whose rejection, if any, is swallowed by
`.catch(console.error)` and never surfaced to the caller). -/
def createTranscriptionJob (b : Behavior) (audioFileUrl : String)
    (webhookUrl : Option String) (st : Store) :
    Except Thrown (TranscriptionJob × RunResult) :=
  match createJobOnly b audioFileUrl webhookUrl st with
  | .error e => .error e
  | .ok (job, st') => .ok (job, processTranscription b job st')

/-- Embedding of `getTranscriptionJob` (`service.ts` lines 79–83): it is a
direct delegation to `storage.getJob`. -/
def getTranscriptionJob (st : Store) (jobId : String) (fault : Option Thrown) :
    Except Thrown (Option TranscriptionJob) :=
  Storage.getJob st jobId fault

/-- The record observed for the created job after the background run has
fully finished. `waitForJob` (second service variant, `waitForJob` lines
151–156) awaits the stored processing promise, which settles exactly when
`processTranscription` (catch included) has finished; a `getJob` issued
after that reads the run's final store. An `error` result means the
synchronous creation itself failed, so there is no job to observe. -/
def observedAfterWait (b : Behavior) (audioFileUrl : String)
    (webhookUrl : Option String) (st : Store) : Option TranscriptionJob :=
  match createTranscriptionJob b audioFileUrl webhookUrl st with
  | .error _ => none
  | .ok (job, rr) => findJob rr.store.jobs job.id

/-- Trace of the background run scheduled by a creation call (empty when the
synchronous creation failed, since then no pipeline was scheduled). -/
def runTraceOf : Except Thrown (TranscriptionJob × RunResult) → List Event
  | .error _ => []
  | .ok (_, rr) => rr.trace

/-- The notification-collaborator calls of a trace. -/
def notifyCalls (tr : List Event) : List (String × TranscriptionJob) :=
  tr.filterMap fun e =>
    match e with
    | .notifyCalled url job => some (url, job)
    | _ => none

/-- The file-fetch-collaborator calls of a trace. -/
def downloadCalls (tr : List Event) : List (String × String) :=
  tr.filterMap fun e =>
    match e with
    | .downloadCalled url dest => some (url, dest)
    | _ => none

/-- Temp directories acquired during a trace. -/
def createdDirs (tr : List Event) : List String :=
  tr.filterMap fun e =>
    match e with
    | .tempCreated d => some d
    | _ => none

/-- Temp directories released during a trace. -/
def removedDirs (tr : List Event) : List String :=
  tr.filterMap fun e =>
    match e with
    | .tempRemoved d => some d
    | _ => none

/-- Step numbering of the pipeline events in the order the SPEC documents
the steps (step 1: persist `pending → processing`; step 2: acquire the
temporary working location; step 3: fetch; step 4: transcribe; step 5:
persist `completed`). Events outside steps 1–5 are not numbered. -/
def specStepOfEvent (e : Event) : Option Nat :=
  match e with
  | .updateCalled _ u =>
    match u.status with
    | some .processing => some 0
    | some .completed => some 4
    | _ => none
  | .tempCreated _ => some 1
  | .downloadCalled _ _ => some 2
  | .transcribeCalled _ => some 3
  | _ => none

/-- Step numbering of the pipeline events in the order the CODE performs
them (`service.ts` lines 25–42: temp dir, processing persist, download,
transcribe, completed persist). -/
def stepOfEvent (e : Event) : Option Nat :=
  match e with
  | .tempCreated _ => some 0
  | .updateCalled _ u =>
    match u.status with
    | some .processing => some 1
    | some .completed => some 4
    | _ => none
  | .downloadCalled _ _ => some 2
  | .transcribeCalled _ => some 3
  | _ => none

/-- Strict ascent of a list of step numbers. -/
def ascending : List Nat → Bool
  | [] => true
  | [_] => true
  | a :: b :: rest => decide (a < b) && ascending (b :: rest)

/-- Absence of the path separator in a string. The output of `randomUUID()`
(hex digits and dashes, RFC 4122) always satisfies this. -/
def slashFree (s : String) : Prop := '/' ∉ s.data

/-- The empty storage state. -/
def store0 : Store := { jobs := [], clock := 0 }

/-- A run whose collaborators all succeed except the webhook notification,
which throws `Error("notify boom")`. -/
def bC1 : Behavior :=
  { newId := "job-1", mkdtempResult := .ok "/tmp/transcription-aaaaaa",
    uuid := "11111111-1111-4111-8111-111111111111",
    downloadResult := .ok (), transcribeResult := .ok "hello",
    notifyResult := .error (.error "notify boom") }

/-- A run in which the download throws `Error("404")` and the
failure-terminal storage update also throws (the documented double-failure
scenario). -/
def bC2 : Behavior :=
  { newId := "job-2", mkdtempResult := .ok "/tmp/transcription-bbbbbb",
    uuid := "22222222-2222-4222-8222-222222222222",
    downloadResult := .error (.error "404"), transcribeResult := .ok "hello",
    notifyResult := .ok (), updateFailedFault := some .nonError }

/-- A run in which the download throws `Error("404")` and the
failure-terminal storage update succeeds. -/
def bC2w : Behavior :=
  { newId := "job-2w", mkdtempResult := .ok "/tmp/transcription-eeeeee",
    uuid := "55555555-5555-4555-8555-555555555555",
    downloadResult := .error (.error "404"), transcribeResult := .ok "x",
    notifyResult := .ok () }

/-- A run whose collaborators all succeed. -/
def bC3 : Behavior :=
  { newId := "job-3", mkdtempResult := .ok "/tmp/transcription-cccccc",
    uuid := "33333333-3333-4333-8333-333333333333",
    downloadResult := .ok (), transcribeResult := .ok "hello",
    notifyResult := .ok () }

/-- A run whose collaborators all succeed. -/
def bC4 : Behavior :=
  { newId := "job-4", mkdtempResult := .ok "/tmp/transcription-dddddd",
    uuid := "44444444-4444-4444-8444-444444444444",
    downloadResult := .ok (), transcribeResult := .ok "hello",
    notifyResult := .ok () }

/-- A run in which the download throws `Error("404")` and the
failure-terminal storage update succeeds. -/
def bC7w : Behavior :=
  { newId := "job-7w", mkdtempResult := .ok "/tmp/transcription-gggggg",
    uuid := "77777777-7777-4777-8777-777777777777",
    downloadResult := .error (.error "404"), transcribeResult := .ok "x",
    notifyResult := .ok () }

/-- A run in which the download throws `Error("404")` and the
failure-terminal storage update throws a non-`Error` value. -/
def bC7cx : Behavior :=
  { newId := "job-7cx", mkdtempResult := .ok "/tmp/transcription-hhhhhh",
    uuid := "88888888-8888-4888-8888-888888888888",
    downloadResult := .error (.error "404"), transcribeResult := .ok "x",
    notifyResult := .ok (), updateFailedFault := some .nonError }

/-- A run whose collaborators all succeed. -/
def bC10 : Behavior :=
  { newId := "job-10", mkdtempResult := .ok "/tmp/transcription-iiiiii",
    uuid := "99999999-9999-4999-8999-999999999999",
    downloadResult := .ok (), transcribeResult := .ok "hello",
    notifyResult := .ok () }

/-- Splitting a list at the LAST occurrence of a separator is unambiguous:
if the separator occurs in neither suffix, equal concatenations have equal
parts. -/
theorem append_last_sep {α : Type} (c : α) (as : List α) :
    ∀ (as' bs bs' : List α), c ∉ bs → c ∉ bs' →
      as ++ c :: bs = as' ++ c :: bs' → as = as' ∧ bs = bs' := by
  induction as with
  | nil =>
    intro as' bs bs' h1 h2 h
    cases as' with
    | nil => simpa using h
    | cons a' t' =>
      simp only [List.nil_append, List.cons_append, List.cons.injEq] at h
      obtain ⟨rfl, h⟩ := h
      exact absurd (h ▸ List.mem_append_right t' (List.mem_cons_self _ _)) h1
  | cons a t ih =>
    intro as' bs bs' h1 h2 h
    cases as' with
    | nil =>
      simp only [List.nil_append, List.cons_append, List.cons.injEq] at h
      obtain ⟨heq, h⟩ := h
      exact absurd (h.symm ▸ List.mem_append_right t (heq ▸ List.mem_cons_self _ _)) h2
    | cons a' t' =>
      simp only [List.cons_append, List.cons.injEq] at h
      obtain ⟨rfl, h⟩ := h
      obtain ⟨rfl, rfl⟩ := ih t' bs bs' h1 h2 h
      exact ⟨rfl, rfl⟩

/-- Distinct temp directories yield distinct derived audio file paths, and
the path determines the `randomUUID()` part, provided the uuid parts are
slash-free (which RFC 4122 uuids are): the directory part of
`dir ++ "/" ++ uuid ++ ".audio"` is everything before the last slash. -/
theorem joinPath_inj {d1 d2 u1 u2 : String} (h1 : slashFree u1) (h2 : slashFree u2)
    (h : joinPath d1 u1 = joinPath d2 u2) : d1 = d2 ∧ u1 = u2 := by
  have hdata := congrArg String.data h
  simp only [joinPath, String.data_append] at hdata
  have hsep : ∀ (dd uu : List Char), ((dd ++ "/".data) ++ uu) ++ ".audio".data
      = dd ++ '/' :: (uu ++ ".audio".data) := by
    intro dd uu
    simp [show "/".data = ['/'] from rfl]
  rw [hsep, hsep] at hdata
  have hnot1 : '/' ∉ u1.data ++ ".audio".data := by
    simp only [List.mem_append]
    rintro (hx | hx)
    · exact h1 hx
    · revert hx; decide
  have hnot2 : '/' ∉ u2.data ++ ".audio".data := by
    simp only [List.mem_append]
    rintro (hx | hx)
    · exact h2 hx
    · revert hx; decide
  obtain ⟨hd, hu⟩ := append_last_sep '/' d1.data d2.data _ _ hnot1 hnot2 hdata
  refine ⟨String.ext hd, String.ext ?_⟩
  exact List.append_cancel_right hu

/-- Within one inner-try run, the path handed to the transcription
collaborator is the derived audio file path of that run. -/
theorem innerBody_transcribe_eq (b : Behavior) (job : TranscriptionJob) (q : String)
    (st : Store) (p : String)
    (hp : Event.transcribeCalled p ∈ (innerBody b job q st).2.2) : p = q := by
  revert hp
  unfold innerBody
  rcases h1 : Storage.updateJob st job.id
      { status := some JobStatus.processing, result := none, error := none,
        webhookUrl := none } b.updateProcessingFault with e1 | ⟨j1, st1⟩ <;>
    simp only [h1]
  · simp
  rcases h2 : b.downloadResult with e2 | u2 <;> simp only [h2]
  · simp
  rcases h3 : b.transcribeResult with e3 | r <;> simp only [h3]
  · simp
  rcases h4 : Storage.updateJob st1 job.id
      { status := some JobStatus.completed, result := some r, error := none,
        webhookUrl := none } b.updateCompletedFault with e4 | ⟨j4, st4⟩ <;>
    simp only [h4]
  · simp
  rcases h5 : j4.webhookUrl with _ | url <;> simp only [h5]
  · simp
  rcases h6 : b.notifyResult with e6 | u6 <;> simp only [h6] <;> split_ifs <;> simp

/-- If the transcription collaborator was reached in an inner-try run, the
file-fetch collaborator was invoked exactly once, with the job's source URL
and the derived audio file path. -/
theorem innerBody_downloads (b : Behavior) (job : TranscriptionJob) (q : String)
    (st : Store) (p : String)
    (hp : Event.transcribeCalled p ∈ (innerBody b job q st).2.2) :
    downloadCalls (innerBody b job q st).2.2 = [(job.audioFileUrl, q)] := by
  revert hp
  unfold innerBody
  rcases h1 : Storage.updateJob st job.id
      { status := some JobStatus.processing, result := none, error := none,
        webhookUrl := none } b.updateProcessingFault with e1 | ⟨j1, st1⟩ <;>
    simp only [h1]
  · simp
  rcases h2 : b.downloadResult with e2 | u2 <;> simp only [h2]
  · simp
  rcases h3 : b.transcribeResult with e3 | r <;> simp only [h3]
  · simp [downloadCalls]
  rcases h4 : Storage.updateJob st1 job.id
      { status := some JobStatus.completed, result := some r, error := none,
        webhookUrl := none } b.updateCompletedFault with e4 | ⟨j4, st4⟩ <;>
    simp only [h4]
  · simp [downloadCalls]
  rcases h5 : j4.webhookUrl with _ | url <;> simp only [h5]
  · simp [downloadCalls]
  rcases h6 : b.notifyResult with e6 | u6 <;> simp only [h6] <;> split_ifs <;>
    simp [downloadCalls]

/-- The outer catch appends exactly one storage-update call to the trace. -/
theorem outerCatch_trace (b : Behavior) (job : TranscriptionJob) (st : Store)
    (tr : List Event) (e : Thrown) :
    (outerCatch b job st tr e).trace
      = tr ++ [Event.updateCalled job.id
          { status := some JobStatus.failed, error := some e.message }] := by
  simp only [outerCatch]
  split <;> rfl

/-- Any path handed to the transcription collaborator during a pipeline run
is the audio file path derived from that run's temp directory and uuid, and
is exactly the (unique) path previously handed to the file-fetch
collaborator. -/
theorem processTranscription_transcribe (b : Behavior) (job : TranscriptionJob)
    (st : Store) (p : String)
    (hp : Event.transcribeCalled p ∈ (processTranscription b job st).trace) :
    ∃ d, b.mkdtempResult = Except.ok d ∧ p = joinPath d b.uuid
      ∧ downloadCalls (processTranscription b job st).trace = [(job.audioFileUrl, p)] := by
  rcases hmk : b.mkdtempResult with e0 | d
  · exfalso
    unfold processTranscription at hp
    rw [hmk] at hp
    rw [outerCatch_trace] at hp
    simp at hp
  · refine ⟨d, rfl, ?_⟩
    unfold processTranscription at hp ⊢
    rw [hmk] at hp ⊢
    dsimp only at hp ⊢
    have htr := innerBody_transcribe_eq b job (joinPath d b.uuid) st p
    have hdl := innerBody_downloads b job (joinPath d b.uuid) st p
    rcases hI : innerBody b job (joinPath d b.uuid) st with ⟨res, st1, trIn⟩
    rw [hI] at htr hdl hp
    dsimp only at htr hdl hp ⊢
    rcases res with e | u <;> dsimp only at hp ⊢
    · rw [outerCatch_trace] at hp ⊢
      simp only [List.append_assoc, List.mem_append, List.mem_cons,
        List.not_mem_nil, or_false, List.mem_singleton] at hp
      have hmem : Event.transcribeCalled p ∈ trIn := by
        rcases hp with hp | hp
        · cases hp
        rcases hp with hp | hp
        · exact hp
        rcases hp with hp | hp <;> cases hp
      have hpq : p = joinPath d b.uuid := htr hmem
      refine ⟨hpq, ?_⟩
      rw [← hpq] at hdl
      simpa [downloadCalls, List.filterMap_append] using hdl hmem
    · simp only [List.append_assoc, List.mem_append, List.mem_cons,
        List.not_mem_nil, or_false, List.mem_singleton] at hp
      have hmem : Event.transcribeCalled p ∈ trIn := by
        rcases hp with hp | hp
        · cases hp
        rcases hp with hp | hp
        · exact hp
        cases hp
      have hpq : p = joinPath d b.uuid := htr hmem
      refine ⟨hpq, ?_⟩
      rw [← hpq] at hdl
      simpa [downloadCalls, List.filterMap_append] using hdl hmem

/-- End-to-end version of `processTranscription_transcribe` for a pipeline
run scheduled by `createTranscriptionJob`: the transcription path is the
derived per-run path, and it is exactly the single path previously handed
to the file-fetch collaborator together with the creation URL. -/
theorem createJob_transcribe_path (b : Behavior) (url : String) (hook : Option String)
    (st : Store) (p : String)
    (hp : Event.transcribeCalled p ∈ runTraceOf (createTranscriptionJob b url hook st)) :
    ∃ d, b.mkdtempResult = Except.ok d ∧ p = joinPath d b.uuid
      ∧ downloadCalls (runTraceOf (createTranscriptionJob b url hook st)) = [(url, p)] := by
  rcases hcf : b.createFault with _ | e
  · unfold createTranscriptionJob createJobOnly Storage.createJob at hp ⊢
    rw [hcf] at hp ⊢
    dsimp only [runTraceOf] at hp ⊢
    simpa using processTranscription_transcribe b _ _ p hp
  · unfold createTranscriptionJob createJobOnly Storage.createJob at hp
    rw [hcf] at hp
    simp [runTraceOf] at hp

/-- Counterexample to claim C1: in a run whose collaborators all succeed
except the webhook notification (which throws `Error("notify boom")` after
the `completed` persist), the persisted status does NOT remain `completed`:
the thrown notification error reaches the outer catch of
`processTranscription`, which re-persists the job as `failed` with the
notification error's message (the `result` column, un-clearable by the
sparse update, still holds the transcription). -/
theorem notify_failure_flips_job_to_failed_cx :
    ∃ j, observedAfterWait bC1 "https://example.com/a.mp3"
        (some "https://example.com/hook") store0 = some j
      ∧ j.status = JobStatus.failed
      ∧ j.error = some "notify boom"
      ∧ j.result = some "hello" :=
  ⟨_, rfl, rfl, rfl, rfl⟩

/-- Claim C1, amended: when the pipeline reaches the notification step (all
earlier steps succeeded, the job's webhook URL is truthy, i.e. set and
non-empty) and the notification call throws, the job record IS mutated —
the outer catch persists it as `failed` with the notification error's
message — provided that terminal persist itself succeeds. The notification
collaborator was invoked exactly once. -/
theorem notify_failure_marks_job_failed (b : Behavior) (url wh : String) (st : Store)
    (e : Thrown) (r : String) (hw : wh ≠ "")
    (hc : b.createFault = none) (hm : ∃ d, b.mkdtempResult = Except.ok d)
    (hp : b.updateProcessingFault = none) (hdl : b.downloadResult = Except.ok ())
    (htr : b.transcribeResult = Except.ok r) (hcu : b.updateCompletedFault = none)
    (hn : b.notifyResult = Except.error e) (hf : b.updateFailedFault = none) :
    ∃ j, observedAfterWait b url (some wh) st = some j
      ∧ j.status = JobStatus.failed ∧ j.error = some e.message ∧ j.result = some r
      ∧ (notifyCalls (runTraceOf (createTranscriptionJob b url (some wh) st))).length = 1 := by
  obtain ⟨nid, cf, mk, uu, upf, dl, tsc, ucf, nf, uff⟩ := b
  subst hc; subst hp; subst hcu; subst hf; subst hdl; subst htr; subst hn
  obtain ⟨d, rfl⟩ := hm
  simp [observedAfterWait, createTranscriptionJob, createJobOnly, Storage.createJob,
    processTranscription, innerBody, outerCatch, Storage.updateJob, findJob, setJob,
    applyUpdate, updCol, runTraceOf, notifyCalls, hw]

/-- Witness for `notify_failure_marks_job_failed` at the concrete run `bC1`. -/
theorem notify_failure_marks_job_failed_witness :
    ∃ j, observedAfterWait bC1 "https://example.com/a.mp3"
        (some "https://example.com/hook") store0 = some j
      ∧ j.status = JobStatus.failed ∧ j.error = some (Thrown.error "notify boom").message
      ∧ j.result = some "hello"
      ∧ (notifyCalls (runTraceOf (createTranscriptionJob bC1 "https://example.com/a.mp3"
          (some "https://example.com/hook") store0))).length = 1 :=
  notify_failure_marks_job_failed bC1 "https://example.com/a.mp3" "https://example.com/hook"
    store0 (Thrown.error "notify boom") "hello" (by decide) rfl
    ⟨"/tmp/transcription-aaaaaa", rfl⟩ rfl rfl rfl rfl rfl rfl

/-- Counterexample to claim C2: in the double-failure run `bC2` (download
throws, then the failure-terminal persist also throws), waiting for the
pipeline to finish and then reading the job observes status `processing`,
which is not terminal. -/
theorem wait_then_get_nonterminal_cx :
    ∃ j, observedAfterWait bC2 "https://example.com/a.mp3" none store0 = some j
      ∧ j.status = JobStatus.processing :=
  ⟨_, rfl, rfl⟩

/-- Claim C2, amended: provided the failure-terminal persist succeeds when
reached (i.e. excluding the spec's documented double-failure edge case),
calling wait-for-job (which awaits the tracked pipeline promise) and then
get-job observes a terminal status, `completed` or `failed`, never
`pending` or `processing`. -/
theorem wait_then_get_terminal (b : Behavior) (url : String) (hook : Option String)
    (st : Store) (hc : b.createFault = none) (hf : b.updateFailedFault = none) :
    ∃ j, observedAfterWait b url hook st = some j
      ∧ (j.status = JobStatus.completed ∨ j.status = JobStatus.failed) := by
  obtain ⟨nid, cf, mk, uu, upf, dl, tsc, ucf, nf, uff⟩ := b
  subst hc; subst hf
  rcases mk with ⟨e⟩ | ⟨d⟩ <;>
  rcases upf with _ | e1 <;>
  rcases dl with ⟨e2⟩ | _ <;>
  rcases tsc with ⟨e3⟩ | ⟨r⟩ <;>
  rcases ucf with _ | e4 <;>
  rcases hook with _ | wh <;>
  rcases nf with ⟨e5⟩ | _ <;>
  simp [observedAfterWait, createTranscriptionJob, createJobOnly, Storage.createJob,
    processTranscription, innerBody, outerCatch, Storage.updateJob, findJob, setJob,
    applyUpdate, updCol] <;>
  split_ifs <;>
  simp [observedAfterWait, createTranscriptionJob, createJobOnly, Storage.createJob,
    processTranscription, innerBody, outerCatch, Storage.updateJob, findJob, setJob,
    applyUpdate, updCol]

/-- Witness for `wait_then_get_terminal` at the concrete run `bC2w`. -/
theorem wait_then_get_terminal_witness :
    ∃ j, observedAfterWait bC2w "https://example.com/a.mp3" none store0 = some j
      ∧ (j.status = JobStatus.completed ∨ j.status = JobStatus.failed) :=
  wait_then_get_terminal bC2w "https://example.com/a.mp3" none store0 rfl rfl

/-- Counterexample to claim C3: `createTranscriptionJob` performs no
validation of `audioFileUrl` — a creation request with the empty string is
NOT rejected synchronously; it succeeds and a job record with
`audioFileUrl = ""` and status `pending` is persisted. -/
theorem empty_url_job_created_cx :
    ∃ job st', createJobOnly bC3 "" none store0 = Except.ok (job, st')
      ∧ job.status = JobStatus.pending
      ∧ job.audioFileUrl = ""
      ∧ findJob st'.jobs job.id = some job :=
  ⟨_, _, rfl, rfl, rfl, rfl⟩

/-- Claim C3, amended: create-job validates nothing. For EVERY
`audioFileUrl` string, the empty string included, a creation whose storage
call succeeds persists a `pending` job with exactly that URL (malformed
URLs surface only later, as a failure of the background fetch step). -/
theorem createJob_no_validation (b : Behavior) (url : String) (hook : Option String)
    (st : Store) (h : b.createFault = none) :
    ∃ job st', createJobOnly b url hook st = Except.ok (job, st')
      ∧ job.status = JobStatus.pending ∧ job.audioFileUrl = url ∧ job.webhookUrl = hook
      ∧ findJob st'.jobs job.id = some job := by
  obtain ⟨nid, cf, mk, uu, upf, dl, tsc, ucf, nf, uff⟩ := b
  subst h
  exact ⟨_, _, rfl, rfl, rfl, rfl, by simp [findJob]⟩

/-- Witness for `createJob_no_validation` at the empty URL. -/
theorem createJob_no_validation_witness :
    ∃ job st', createJobOnly bC3 "" none store0 = Except.ok (job, st')
      ∧ job.status = JobStatus.pending ∧ job.audioFileUrl = ""
      ∧ job.webhookUrl = none
      ∧ findJob st'.jobs job.id = some job :=
  createJob_no_validation bC3 "" none store0 rfl

/-- Counterexample to claim C4: in the all-success run `bC4`, numbering the
trace events in the order the spec documents the steps (processing persist
first, temp-dir acquisition second) does NOT give an ascending sequence:
the code acquires the temp directory BEFORE persisting
`pending → processing` (`service.ts` lines 25–30). -/
theorem spec_step_order_violated_cx :
    ascending
      ((runTraceOf (createTranscriptionJob bC4 "https://example.com/a.mp3" none store0)).filterMap
        specStepOfEvent) = false := by
  rfl

/-- Claim C4, amended: within every single pipeline run the steps do execute
strictly sequentially, but in the CODE's order — temp-dir acquisition, then
the `pending → processing` persist, then the file fetch, then transcription,
then the `completed` persist: the trace events numbered in that order always
form a strictly ascending sequence. -/
theorem pipeline_step_order (b : Behavior) (job : TranscriptionJob) (st : Store) :
    ascending ((processTranscription b job st).trace.filterMap stepOfEvent) = true := by
  obtain ⟨nid, cf, mk, uu, upf, dl, tsc, ucf, nf, uff⟩ := b
  simp only [processTranscription, innerBody, outerCatch, Storage.updateJob]
  repeat' split
  all_goals simp [stepOfEvent, ascending]

/-- Claim C5 (confirmed): in every pipeline run, the list of temp
directories acquired equals the list of temp directories released — the
`finally` of `processTranscription` removes the directory on every exit
path (success, fetch failure, transcription failure, storage failure,
notification failure), so after the run the scoped temporary location no
longer exists; and a run that never acquired one releases none. -/
theorem temp_dir_always_released (b : Behavior) (job : TranscriptionJob) (st : Store) :
    createdDirs (processTranscription b job st).trace
      = removedDirs (processTranscription b job st).trace := by
  obtain ⟨nid, cf, mk, uu, upf, dl, tsc, ucf, nf, uff⟩ := b
  simp only [processTranscription, innerBody, outerCatch, Storage.updateJob]
  repeat' split
  all_goals simp [createdDirs, removedDirs]

/-- Claim C6 (confirmed): a `createTranscriptionJob` call (i) propagates a
failure of the initial storage create to the caller unchanged; (ii) when
the create succeeds, persists a new `pending` record with the given URLs,
returns exactly the record just persisted, and schedules the background
pipeline on it; and (iii) returns a synchronous result that does not depend
on any background-pipeline behavior — no background failure is surfaced
synchronously and the caller does not block on the pipeline. -/
theorem createTranscriptionJob_contract (b : Behavior) (url : String)
    (hook : Option String) (st : Store) :
    (∀ e, b.createFault = some e → createTranscriptionJob b url hook st = Except.error e)
    ∧ (b.createFault = none →
        ∃ job st', createJobOnly b url hook st = Except.ok (job, st')
          ∧ job.status = JobStatus.pending ∧ job.audioFileUrl = url ∧ job.webhookUrl = hook
          ∧ findJob st'.jobs job.id = some job
          ∧ createTranscriptionJob b url hook st = Except.ok (job, processTranscription b job st'))
    ∧ (∀ b' : Behavior, b'.newId = b.newId → b'.createFault = b.createFault →
        (createTranscriptionJob b' url hook st).map Prod.fst
          = (createTranscriptionJob b url hook st).map Prod.fst) := by
  refine ⟨?_, ?_, ?_⟩
  · intro e he
    simp [createTranscriptionJob, createJobOnly, Storage.createJob, he]
  · intro h
    obtain ⟨nid, cf, mk, uu, upf, dl, tsc, ucf, nf, uff⟩ := b
    subst h
    exact ⟨_, _, rfl, rfl, rfl, rfl, by simp [findJob], rfl⟩
  · intro b' h1 h2
    rcases hcf : b.createFault with _ | e <;>
    simp [createTranscriptionJob, createJobOnly, Storage.createJob, Except.map, h1, hcf,
      h2.trans hcf]

/-- Counterexample to claim C7: in the run `bC7cx` the fetch step fails with
`Error("404")` but the job is NOT persisted as failed — the failure-terminal
persist itself throws (documented double-failure), leaving the record in
status `processing` with no `error`. -/
theorem failed_persist_double_fault_cx :
    ∃ j, observedAfterWait bC7cx "https://example.com/a.mp3" none store0 = some j
      ∧ j.status = JobStatus.processing ∧ j.error = none :=
  ⟨_, rfl, rfl, rfl⟩

/-- Claim C7, amended: in every pipeline run in which the fetch step or the
transcription step throws, provided the failure-terminal persist succeeds
(the spec's documented double-failure edge case excluded), the job is
persisted as `failed` with `error` equal to the thrown value's message when
it is an `Error` and the fixed fallback `"Unknown error occurred"`
otherwise (both covered by `Thrown.message`); `result` is absent and the
notification collaborator is never invoked. -/
theorem fetch_or_transcribe_failure_marks_failed (b : Behavior) (url : String)
    (hook : Option String) (st : Store) (e : Thrown)
    (hc : b.createFault = none)
    (hm : ∃ d, b.mkdtempResult = Except.ok d)
    (hp : b.updateProcessingFault = none)
    (hde : b.downloadResult = Except.error e
        ∨ (b.downloadResult = Except.ok () ∧ b.transcribeResult = Except.error e))
    (hf : b.updateFailedFault = none) :
    ∃ j, observedAfterWait b url hook st = some j
      ∧ j.status = JobStatus.failed ∧ j.error = some e.message ∧ j.result = none
      ∧ notifyCalls (runTraceOf (createTranscriptionJob b url hook st)) = [] := by
  obtain ⟨nid, cf, mk, uu, upf, dl, tsc, ucf, nf, uff⟩ := b
  subst hc; subst hp; subst hf
  obtain ⟨d, rfl⟩ := hm
  rcases hde with rfl | ⟨rfl, rfl⟩ <;>
  simp [observedAfterWait, createTranscriptionJob, createJobOnly, Storage.createJob,
    processTranscription, innerBody, outerCatch, Storage.updateJob, findJob, setJob,
    applyUpdate, updCol, runTraceOf, notifyCalls]

/-- Witness for `fetch_or_transcribe_failure_marks_failed` at the concrete
run `bC7w` (fetch fails with `Error("404")`, terminal persist succeeds). -/
theorem fetch_or_transcribe_failure_marks_failed_witness :
    ∃ j, observedAfterWait bC7w "https://example.com/a.mp3" none store0 = some j
      ∧ j.status = JobStatus.failed ∧ j.error = some (Thrown.error "404").message
      ∧ j.result = none
      ∧ notifyCalls (runTraceOf
          (createTranscriptionJob bC7w "https://example.com/a.mp3" none store0)) = [] :=
  fetch_or_transcribe_failure_marks_failed bC7w "https://example.com/a.mp3" none store0
    (Thrown.error "404") rfl ⟨"/tmp/transcription-gggggg", rfl⟩ rfl (Or.inl rfl) rfl

/-- Claim C8 (confirmed): for every job created without a `webhookUrl`, no
behavior of any collaborator makes the pipeline invoke the notification
collaborator — the created record has no webhook URL, in-pipeline updates
never set one (the sparse update passes `webhook_url = NULL`), and the
notification branch is guarded on the updated record's `webhookUrl`. -/
theorem no_webhook_no_notify (b : Behavior) (url : String) (st : Store) :
    notifyCalls (runTraceOf (createTranscriptionJob b url none st)) = [] := by
  obtain ⟨nid, cf, mk, uu, upf, dl, tsc, ucf, nf, uff⟩ := b
  rcases cf with _ | e
  · rcases mk with ⟨e⟩ | ⟨d⟩ <;>
    rcases upf with _ | e1 <;>
    rcases dl with ⟨e2⟩ | _ <;>
    rcases tsc with ⟨e3⟩ | ⟨r⟩ <;>
    rcases ucf with _ | e4 <;>
    rcases uff with _ | e5 <;>
    simp [createTranscriptionJob, createJobOnly, Storage.createJob, processTranscription,
      innerBody, outerCatch, Storage.updateJob, findJob, applyUpdate, updCol, setJob,
      runTraceOf, notifyCalls]
  · simp [createTranscriptionJob, createJobOnly, Storage.createJob, runTraceOf, notifyCalls]

/-- Claim C9 (confirmed): `getTranscriptionJob` returns exactly what the
storage collaborator's `getJob` returns (storage-layer errors propagate to
the caller unchanged); when the storage layer is healthy the result is
`ok` of the row lookup — `some` of the current record when the id exists
and `none` when it does not, never an exception for a missing id — and a
lower-level storage fault surfaces as the wrapped storage error. -/
theorem getJob_never_throws_for_missing_id (st : Store) (id : String) (f : Option Thrown) :
    getTranscriptionJob st id f = Storage.getJob st id f
    ∧ getTranscriptionJob st id none = Except.ok (findJob st.jobs id)
    ∧ (∀ e, getTranscriptionJob st id (some e)
        = Except.error (Thrown.error "Failed to get job")) :=
  ⟨rfl, rfl, fun _ => rfl⟩

/-- Claim C10 (confirmed): whenever the transcription collaborator is
invoked with a path `p`, that `p` is exactly the single path previously
passed to the file-fetch collaborator (together with the job's source URL),
`p` is the freshly derived `tempDir/uuid.audio` path of this run, and two
runs whose temp directories differ (as `fs.mkdtemp` guarantees for
concurrent runs) can never share a working file path, given that uuids are
slash-free as RFC 4122 output is. -/
theorem audio_path_shared_and_unique (b : Behavior) (url : String) (hook : Option String)
    (st : Store) (p : String)
    (hp : Event.transcribeCalled p ∈ runTraceOf (createTranscriptionJob b url hook st)) :
    (∃ d, b.mkdtempResult = Except.ok d ∧ p = joinPath d b.uuid)
    ∧ downloadCalls (runTraceOf (createTranscriptionJob b url hook st)) = [(url, p)]
    ∧ (∀ b' url' hook' st' p',
        Event.transcribeCalled p' ∈ runTraceOf (createTranscriptionJob b' url' hook' st') →
        slashFree b.uuid → slashFree b'.uuid →
        (∀ d d', b.mkdtempResult = Except.ok d → b'.mkdtempResult = Except.ok d' → d ≠ d') →
        p ≠ p') := by
  obtain ⟨d, hd, hpq, hdl⟩ := createJob_transcribe_path b url hook st p hp
  refine ⟨⟨d, hd, hpq⟩, hdl, ?_⟩
  intro b' url' hook' st' p' hp' hsf hsf' hdistinct heq
  obtain ⟨d', hd', hpq', _⟩ := createJob_transcribe_path b' url' hook' st' p' hp'
  have hdd : d = d' := (joinPath_inj hsf hsf' (by rw [← hpq, ← hpq', heq])).1
  exact hdistinct d d' hd hd' hdd

/-- Witness for `audio_path_shared_and_unique` at the concrete all-success
run `bC10`, whose transcription path is its derived audio file path. -/
theorem audio_path_shared_and_unique_witness :
    (∃ d, bC10.mkdtempResult = Except.ok d
        ∧ joinPath "/tmp/transcription-iiiiii" bC10.uuid = joinPath d bC10.uuid)
    ∧ downloadCalls (runTraceOf (createTranscriptionJob bC10 "https://example.com/a.mp3" none store0))
        = [("https://example.com/a.mp3", joinPath "/tmp/transcription-iiiiii" bC10.uuid)]
    ∧ (∀ b' url' hook' st' p',
        Event.transcribeCalled p' ∈ runTraceOf (createTranscriptionJob b' url' hook' st') →
        slashFree bC10.uuid → slashFree b'.uuid →
        (∀ d d', bC10.mkdtempResult = Except.ok d → b'.mkdtempResult = Except.ok d' → d ≠ d') →
        joinPath "/tmp/transcription-iiiiii" bC10.uuid ≠ p') :=
  audio_path_shared_and_unique bC10 "https://example.com/a.mp3" none store0
    (joinPath "/tmp/transcription-iiiiii" bC10.uuid)
    (by decide)
